import Mathlib

/-!
Verification of the connectivity state-tracking and outage-detection engine
of the connection-down-detector repository.

The embedding follows `src/connection_monitor/stats.py` (the `ServerStats`
dataclass and its `record_result` / `packet_loss_pct` methods) and
`src/connection_monitor/outage_logger.py` (the `OutageLogger` methods
`maybe_open_outage`, `maybe_close_outage`, `log_outage`,
`log_longest_uptime`, `log_longest_outage`, `finalize`).

Python floats (timestamps, durations, rtt) are modelled as rationals.
`time.time()` calls are modelled by an explicit `now` argument; the several
`time.time()` calls inside one Python method body are all microseconds
apart, so a single `now` per call stands for them.  Log writes are modelled
as values of an inductive `LogEntry` type returned alongside the new state
(the file append itself, rotation and the textual formatting of the line
are I/O outside the state machine; the entry carries every field the line
carries).
-/

namespace ConnMonitor

/-- `config.CONSECUTIVE_FAILURES_FOR_OUTAGE` from `config.py`. -/
def CONSECUTIVE_FAILURES_FOR_OUTAGE : Nat := 3

/-- `config.ROLLING_WINDOW` from `config.py`. -/
def ROLLING_WINDOW : Nat := 50

/-- The `ServerStats` dataclass of `stats.py` (`host` plus every mutable
field, with Python `Optional` as `Option` and floats as `ℚ`). -/
structure ServerStats where
  host : String
  success_count : Nat := 0
  failure_count : Nat := 0
  consecutive_failures : Nat := 0
  last_rtt_ms : Option ℚ := none
  last_error : Option String := none
  window_results : List Bool := []
  outage_open : Bool := false
  outage_start_ts : Option ℚ := none
  outage_missed : Nat := 0
  first_success_time : Option ℚ := none
  last_success_time : Option ℚ := none
  uptime_start_time : Option ℚ := none
  longest_uptime_streak : ℚ := 0
  longest_uptime_streak_ts : Option ℚ := none
  longest_outage_duration : ℚ := 0
  longest_outage_ts : Option ℚ := none
  new_longest_uptime_recorded : Bool := false
  deriving Repr, DecidableEq

/-- `ServerStats(host)`: the dataclass constructor with all defaults. -/
def initStats (host : String) : ServerStats := { host := host }

/-- Appending to a `collections.deque` with `maxlen = ROLLING_WINDOW`:
the new element goes on the right, the oldest element is evicted when the
capacity is exceeded. -/
def dequeAppend (xs : List Bool) (x : Bool) : List Bool :=
  let ys := xs ++ [x]
  if ROLLING_WINDOW < ys.length then ys.drop (ys.length - ROLLING_WINDOW) else ys

/-- Python `a or b` on an `Optional[float]`: `None` and `0.0` are falsy. -/
def pyOrQ (o : Option ℚ) (d : ℚ) : ℚ :=
  match o with
  | none => d
  | some x => if x = 0 then d else x

/-- Python `a or b` on an `Optional[str]`: `None` and `""` are falsy. -/
def pyOrStr (o : Option String) (d : String) : String :=
  match o with
  | none => d
  | some s => if s = "" then d else s

/-- `ServerStats.record_result(ok, rtt_ms, error)` from `stats.py`,
with `now` standing for `time.time()`. -/
def record_result (now : ℚ) (ok : Bool) (rtt_ms : Option ℚ)
    (error : Option String) (s : ServerStats) : ServerStats :=
  let s := { s with new_longest_uptime_recorded := false }
  if ok then
    { s with
      success_count := s.success_count + 1
      consecutive_failures := 0
      last_rtt_ms := rtt_ms
      last_error := none
      window_results := dequeAppend s.window_results true
      first_success_time :=
        match s.first_success_time with
        | none => some now
        | some t => some t
      uptime_start_time :=
        match s.uptime_start_time with
        | none => some now
        | some t => some t
      last_success_time := some now }
  else
    let s :=
      match s.uptime_start_time with
      | some start =>
          let ended_streak_duration := now - start
          if s.longest_uptime_streak < ended_streak_duration then
            { s with
              longest_uptime_streak := ended_streak_duration
              longest_uptime_streak_ts := some now
              new_longest_uptime_recorded := true }
          else s
      | none => s
    { s with
      failure_count := s.failure_count + 1
      consecutive_failures := s.consecutive_failures + 1
      last_rtt_ms := none
      last_error := some (pyOrStr error "fail")
      window_results := dequeAppend s.window_results false
      uptime_start_time := none }

/-- `ServerStats.packet_loss_pct()` from `stats.py`. -/
def packet_loss_pct (s : ServerStats) : ℚ :=
  if s.window_results = [] then 0
  else ((s.window_results.countP (fun r => !r) : ℚ) / s.window_results.length) * 100

/-- One journal line written by `OutageLogger`.  An `outage` entry carries
host, start and end timestamps, the duration printed on the line
(`end_ts - start_ts`) and the missed-probe count; the two longest-record
entries carry host, duration and timestamp. -/
inductive LogEntry where
  | outage (host : String) (start_ts end_ts duration : ℚ) (missed : Nat)
  | longest_uptime (host : String) (duration ts : ℚ)
  | longest_outage (host : String) (duration ts : ℚ)
  deriving Repr, DecidableEq

/-- `OutageLogger.log_outage`: the line carries start, end,
`duration = end_ts - start_ts` and the missed count. -/
def log_outage (host : String) (start_ts end_ts : ℚ) (missed : Nat) : LogEntry :=
  .outage host start_ts end_ts (end_ts - start_ts) missed

/-- `OutageLogger.log_longest_uptime`. -/
def log_longest_uptime (host : String) (duration ts : ℚ) : LogEntry :=
  .longest_uptime host duration ts

/-- `OutageLogger.log_longest_outage`. -/
def log_longest_outage (host : String) (duration ts : ℚ) : LogEntry :=
  .longest_outage host duration ts

/-- `OutageLogger.maybe_open_outage(stats)`: opens an outage when none is
open and `consecutive_failures` has reached the threshold.  It writes no
log line.  Returns the new state and the (empty) list of entries written. -/
def maybe_open_outage (now : ℚ) (s : ServerStats) : ServerStats × List LogEntry :=
  if s.outage_open = false ∧ CONSECUTIVE_FAILURES_FOR_OUTAGE ≤ s.consecutive_failures then
    ({ s with
        outage_open := true
        outage_start_ts := some now
        outage_missed := s.consecutive_failures }, [])
  else (s, [])

/-- `OutageLogger.maybe_close_outage(stats)`: when an outage is open and a
success has arrived (`consecutive_failures == 0`), logs the outage (with
`start_ts = stats.outage_start_ts or end_ts`), updates the longest-outage
record when the duration exceeds it (also logging it), then clears the
outage fields. -/
def maybe_close_outage (now : ℚ) (s : ServerStats) : ServerStats × List LogEntry :=
  if s.outage_open = true ∧ s.consecutive_failures = 0 then
    let end_ts := now
    let start_ts := pyOrQ s.outage_start_ts end_ts
    let duration := end_ts - start_ts
    let s1 :=
      if s.longest_outage_duration < duration then
        { s with
            longest_outage_duration := duration
            longest_outage_ts := some end_ts }
      else s
    let entries :=
      log_outage s.host start_ts end_ts s.outage_missed ::
        (if s.longest_outage_duration < duration then
          [log_longest_outage s.host duration end_ts]
        else [])
    ({ s1 with
        outage_open := false
        outage_start_ts := none
        outage_missed := 0 }, entries)
  else (s, [])

/-- The reconciliation step: `maybe_open_outage` followed by
`maybe_close_outage` on the same tracker, collecting the entries written. -/
def reconcile (now : ℚ) (s : ServerStats) : ServerStats × List LogEntry :=
  ((maybe_close_outage now (maybe_open_outage now s).1).1,
   (maybe_open_outage now s).2 ++ (maybe_close_outage now (maybe_open_outage now s).1).2)

/-- `OutageLogger.finalize(stats_list)`: for each tracker with an open
outage, log it with `end_ts = now` (and `start_ts = outage_start_ts or now`);
trackers with no open outage produce nothing.  States are not modified. -/
def finalize (now : ℚ) (stats_list : List ServerStats) : List LogEntry :=
  stats_list.flatMap (fun s =>
    if s.outage_open then [log_outage s.host (pyOrQ s.outage_start_ts now) now s.outage_missed]
    else [])

/-- One probe outcome as fed to a tracker: the time it was recorded, the
success flag, and the optional rtt / error detail. -/
structure ProbeOutcome where
  now : ℚ
  ok : Bool
  rtt_ms : Option ℚ := none
  error : Option String := none
  deriving Repr, DecidableEq

/-- Feed a sequence of probe outcomes to a tracker through `record_result`. -/
def runOutcomes (l : List ProbeOutcome) (s : ServerStats) : ServerStats :=
  l.foldl (fun s o => record_result o.now o.ok o.rtt_ms o.error s) s

/-- States reachable from a fresh tracker by any interleaving of
`record_result` calls and reconciliation calls (`maybe_open_outage` /
`maybe_close_outage`), as the test driver and the orchestrator interleave
them. -/
inductive ReachAny : ServerStats → Prop where
  | init (host : String) : ReachAny (initStats host)
  | record {s : ServerStats} (now : ℚ) (ok : Bool) (rtt_ms : Option ℚ)
      (error : Option String) :
      ReachAny s → ReachAny (record_result now ok rtt_ms error s)
  | openStep {s : ServerStats} (now : ℚ) :
      ReachAny s → ReachAny (maybe_open_outage now s).1
  | closeStep {s : ServerStats} (now : ℚ) :
      ReachAny s → ReachAny (maybe_close_outage now s).1

/-- States reachable from a fresh tracker when every `record_result` is
immediately followed by the reconciliation step before the state is next
observed; additional reconciliation calls may run at any time. -/
inductive ReachCycle : ServerStats → Prop where
  | init (host : String) : ReachCycle (initStats host)
  | probe {s : ServerStats} (tp tr : ℚ) (ok : Bool) (rtt_ms : Option ℚ)
      (error : Option String) :
      ReachCycle s → ReachCycle (reconcile tr (record_result tp ok rtt_ms error s)).1
  | openStep {s : ServerStats} (now : ℚ) :
      ReachCycle s → ReachCycle (maybe_open_outage now s).1
  | closeStep {s : ServerStats} (now : ℚ) :
      ReachCycle s → ReachCycle (maybe_close_outage now s).1

/-- Modelled from the spec: the journal reaction to the "new longest
uptime" signal.  `record_result` raises `new_longest_uptime_recorded`, but
no code under `src/` consumes the flag to call
`OutageLogger.log_longest_uptime` for a host (`main.py` belongs to a
divergent variant: it drives a `GlobalStats` object that `stats.py` does
not define and calls `log_longest_uptime` with the wrong arity).  Per the
spec, recording a failure that ends a record-breaking streak raises the
signal and the journal appends one `LONGEST_UPTIME` record for it, with
the new record duration and the time it ended. -/
def record_and_journal (now : ℚ) (ok : Bool) (rtt_ms : Option ℚ)
    (error : Option String) (s : ServerStats) : ServerStats × List LogEntry :=
  let s1 := record_result now ok rtt_ms error s
  (s1,
   if s1.new_longest_uptime_recorded then
     [log_longest_uptime s1.host s1.longest_uptime_streak now]
   else [])

/-- Feed a sequence of outcomes through `record_and_journal`, collecting
the `LONGEST_UPTIME` entries appended along the way. -/
def runJournal (l : List ProbeOutcome) (s : ServerStats) : ServerStats × List LogEntry :=
  l.foldl (fun acc o =>
    ((record_and_journal o.now o.ok o.rtt_ms o.error acc.1).1,
     acc.2 ++ (record_and_journal o.now o.ok o.rtt_ms o.error acc.1).2)) (s, [])

/-- One probe cycle: `record_result` immediately followed by the
reconciliation step at the same time, collecting the entries written. -/
def cycleStep (o : ProbeOutcome) (sl : ServerStats × List LogEntry) :
    ServerStats × List LogEntry :=
  ((reconcile o.now (record_result o.now o.ok o.rtt_ms o.error sl.1)).1,
   sl.2 ++ (reconcile o.now (record_result o.now o.ok o.rtt_ms o.error sl.1)).2)

/-- Feed a sequence of outcomes through probe cycles. -/
def runCycles (l : List ProbeOutcome) (s : ServerStats) : ServerStats × List LogEntry :=
  l.foldl (fun acc o => cycleStep o acc) (s, [])

/-- The last `min ROLLING_WINDOW length` elements of a list: the contents
of a deque with `maxlen = ROLLING_WINDOW` after appending the whole list in
order. -/
def lastWindow (bs : List Bool) : List Bool := bs.drop (bs.length - ROLLING_WINDOW)

/-- Scenario A of the spec: three consecutive failures, then one success
(threshold 3). -/
def scenarioA : List ProbeOutcome :=
  [⟨1, false, none, some "timeout"⟩, ⟨2, false, none, some "timeout"⟩,
   ⟨3, false, none, some "timeout"⟩, ⟨10, true, some 10, none⟩]

/-- Scenario D of the spec: an uptime streak of 50 seconds ends in a
failure, then a streak of 80 seconds ends in a failure. -/
def scenarioD : List ProbeOutcome :=
  [⟨0, true, some 20, none⟩, ⟨50, false, none, some "timeout"⟩,
   ⟨60, true, some 20, none⟩, ⟨140, false, none, some "timeout"⟩]

/-- A tracker that has just seen three consecutive failures (threshold
reached, outage not yet opened). -/
def threeFails : ServerStats :=
  runOutcomes
    [⟨1, false, none, some "timeout"⟩, ⟨2, false, none, some "timeout"⟩,
     ⟨3, false, none, some "timeout"⟩] (initStats "x")

/-- A tracker state produced by the interleaving: three failures, the open
step of the reconciliation, then a success recorded with no reconciliation
after it. -/
def successBeforeReconcile : ServerStats :=
  record_result 5 true (some 10) none (maybe_open_outage 4 threeFails).1

/-- The outage invariant of the spec: a zero failure counter means no open
outage, and an open outage means the counter has reached the threshold. -/
def OutageInv (s : ServerStats) : Prop :=
  (s.consecutive_failures = 0 → s.outage_open = false) ∧
  (s.outage_open = true → CONSECUTIVE_FAILURES_FOR_OUTAGE ≤ s.consecutive_failures)

/-! ### Branch characterization lemmas -/

theorem maybe_open_outage_pos (now : ℚ) (s : ServerStats)
    (h : s.outage_open = false ∧ CONSECUTIVE_FAILURES_FOR_OUTAGE ≤ s.consecutive_failures) :
    maybe_open_outage now s =
      ({ s with
          outage_open := true
          outage_start_ts := some now
          outage_missed := s.consecutive_failures }, []) := by
  unfold maybe_open_outage
  rw [if_pos h]

theorem maybe_open_outage_neg (now : ℚ) (s : ServerStats)
    (h : ¬(s.outage_open = false ∧ CONSECUTIVE_FAILURES_FOR_OUTAGE ≤ s.consecutive_failures)) :
    maybe_open_outage now s = (s, []) := by
  unfold maybe_open_outage
  rw [if_neg h]

theorem maybe_close_outage_pos (now : ℚ) (s : ServerStats)
    (h : s.outage_open = true ∧ s.consecutive_failures = 0) :
    maybe_close_outage now s =
      ({ s with
          longest_outage_duration :=
            if s.longest_outage_duration < now - pyOrQ s.outage_start_ts now then
              now - pyOrQ s.outage_start_ts now
            else s.longest_outage_duration
          longest_outage_ts :=
            if s.longest_outage_duration < now - pyOrQ s.outage_start_ts now then
              some now
            else s.longest_outage_ts
          outage_open := false
          outage_start_ts := none
          outage_missed := 0 },
       log_outage s.host (pyOrQ s.outage_start_ts now) now s.outage_missed ::
         (if s.longest_outage_duration < now - pyOrQ s.outage_start_ts now then
           [log_longest_outage s.host (now - pyOrQ s.outage_start_ts now) now]
         else [])) := by
  unfold maybe_close_outage
  rw [if_pos h]
  by_cases hd : s.longest_outage_duration < now - pyOrQ s.outage_start_ts now
  · simp only [if_pos hd]
  · simp only [if_neg hd]

theorem maybe_close_outage_neg (now : ℚ) (s : ServerStats)
    (h : ¬(s.outage_open = true ∧ s.consecutive_failures = 0)) :
    maybe_close_outage now s = (s, []) := by
  unfold maybe_close_outage
  rw [if_neg h]

/-- `record_result` on a success, as one structure literal. -/
theorem record_result_true_eq (now : ℚ) (rtt : Option ℚ) (err : Option String)
    (s : ServerStats) :
    record_result now true rtt err s =
      { s with
        new_longest_uptime_recorded := false
        success_count := s.success_count + 1
        consecutive_failures := 0
        last_rtt_ms := rtt
        last_error := none
        window_results := dequeAppend s.window_results true
        first_success_time :=
          match s.first_success_time with
          | none => some now
          | some t => some t
        uptime_start_time :=
          match s.uptime_start_time with
          | none => some now
          | some t => some t
        last_success_time := some now } := rfl

/-- `record_result` on a failure with no uptime streak running. -/
theorem record_result_false_none (now : ℚ) (rtt : Option ℚ) (err : Option String)
    (s : ServerStats) (hu : s.uptime_start_time = none) :
    record_result now false rtt err s =
      { s with
        new_longest_uptime_recorded := false
        failure_count := s.failure_count + 1
        consecutive_failures := s.consecutive_failures + 1
        last_rtt_ms := none
        last_error := some (pyOrStr err "fail")
        window_results := dequeAppend s.window_results false
        uptime_start_time := none } := by
  obtain ⟨h1, h2, h3, h4, h5, h6, h7, h8, h9, h10, h11, h12, h13, h14, h15, h16, h17, h18⟩ := s
  simp only at hu
  subst hu
  rfl

/-- `record_result` on a failure that ends an uptime streak: the
longest-uptime bookkeeping happens first, from the pre-state. -/
theorem record_result_false_some (now : ℚ) (rtt : Option ℚ) (err : Option String)
    (s : ServerStats) (t : ℚ) (hu : s.uptime_start_time = some t) :
    record_result now false rtt err s =
      { s with
        longest_uptime_streak :=
          if s.longest_uptime_streak < now - t then now - t
          else s.longest_uptime_streak
        longest_uptime_streak_ts :=
          if s.longest_uptime_streak < now - t then some now
          else s.longest_uptime_streak_ts
        new_longest_uptime_recorded :=
          if s.longest_uptime_streak < now - t then true else false
        failure_count := s.failure_count + 1
        consecutive_failures := s.consecutive_failures + 1
        last_rtt_ms := none
        last_error := some (pyOrStr err "fail")
        window_results := dequeAppend s.window_results false
        uptime_start_time := none } := by
  obtain ⟨h1, h2, h3, h4, h5, h6, h7, h8, h9, h10, h11, h12, h13, h14, h15, h16, h17, h18⟩ := s
  simp only at hu
  subst hu
  by_cases hd : h14 < now - t
  · simp only [record_result, hd, if_pos]
    rfl
  · simp only [record_result, hd, if_neg, if_false]
    rfl

/-- `record_result` never touches the outage bookkeeping fields. -/
theorem record_result_outage_frame (now : ℚ) (ok : Bool) (rtt : Option ℚ)
    (err : Option String) (s : ServerStats) :
    (record_result now ok rtt err s).outage_open = s.outage_open ∧
    (record_result now ok rtt err s).outage_start_ts = s.outage_start_ts ∧
    (record_result now ok rtt err s).outage_missed = s.outage_missed ∧
    (record_result now ok rtt err s).longest_outage_duration = s.longest_outage_duration ∧
    (record_result now ok rtt err s).longest_outage_ts = s.longest_outage_ts := by
  cases ok
  · cases hu : s.uptime_start_time with
    | none => rw [record_result_false_none now rtt err s hu]; exact ⟨rfl, rfl, rfl, rfl, rfl⟩
    | some t => rw [record_result_false_some now rtt err s t hu]; exact ⟨rfl, rfl, rfl, rfl, rfl⟩
  · rw [record_result_true_eq]; exact ⟨rfl, rfl, rfl, rfl, rfl⟩

/-- `consecutive_failures` after `record_result`: zero on a success, one
more on a failure. -/
theorem record_result_consecutive (now : ℚ) (ok : Bool) (rtt : Option ℚ)
    (err : Option String) (s : ServerStats) :
    (record_result now ok rtt err s).consecutive_failures =
      if ok then 0 else s.consecutive_failures + 1 := by
  cases ok
  · cases hu : s.uptime_start_time with
    | none => rw [record_result_false_none now rtt err s hu]; rfl
    | some t => rw [record_result_false_some now rtt err s t hu]; rfl
  · rw [record_result_true_eq]; rfl

/-- The reconciliation step, when it opens an outage
(no outage open, threshold reached): the close part is a no-op. -/
theorem reconcile_opens (now : ℚ) (s : ServerStats)
    (h : s.outage_open = false ∧ CONSECUTIVE_FAILURES_FOR_OUTAGE ≤ s.consecutive_failures) :
    reconcile now s =
      ({ s with
          outage_open := true
          outage_start_ts := some now
          outage_missed := s.consecutive_failures }, []) := by
  have hc : ¬ s.consecutive_failures = 0 := by
    have := h.2; unfold CONSECUTIVE_FAILURES_FOR_OUTAGE at this; omega
  unfold reconcile
  rw [maybe_open_outage_pos now s h]
  rw [maybe_close_outage_neg now _ (by simp [hc])]
  rfl

/-- The reconciliation step, when it closes an outage
(outage open, a success arrived): the open part is a no-op. -/
theorem reconcile_closes (now : ℚ) (s : ServerStats)
    (h : s.outage_open = true ∧ s.consecutive_failures = 0) :
    reconcile now s = maybe_close_outage now s := by
  unfold reconcile
  rw [maybe_open_outage_neg now s (by simp [h.1])]
  rfl

/-- The reconciliation step, when neither edge triggers: a no-op. -/
theorem reconcile_noop (now : ℚ) (s : ServerStats)
    (h1 : ¬(s.outage_open = false ∧ CONSECUTIVE_FAILURES_FOR_OUTAGE ≤ s.consecutive_failures))
    (h2 : ¬(s.outage_open = true ∧ s.consecutive_failures = 0)) :
    reconcile now s = (s, []) := by
  unfold reconcile
  rw [maybe_open_outage_neg now s h1, maybe_close_outage_neg now s h2]
  rfl

/-- Claim C1: for every tracker state, running the reconciliation step
(`maybe_open_outage` followed by `maybe_close_outage`) twice in a row with
no probe outcome in between is equivalent to running it once — the second
run returns the same state and appends no log record. -/
theorem C1_reconcile_idempotent (t1 t2 : ℚ) (s : ServerStats) :
    reconcile t2 (reconcile t1 s).1 = ((reconcile t1 s).1, []) := by
  by_cases ho : s.outage_open = true
  · by_cases hc : s.consecutive_failures = 0
    · rw [reconcile_closes t1 s ⟨ho, hc⟩, maybe_close_outage_pos t1 s ⟨ho, hc⟩]
      exact reconcile_noop t2 _ (by simp [hc, CONSECUTIVE_FAILURES_FOR_OUTAGE]) (by simp)
    · rw [reconcile_noop t1 s (by simp [ho]) (by simp [hc])]
      exact reconcile_noop t2 s (by simp [ho]) (by simp [hc])
  · replace ho : s.outage_open = false := by simpa using ho
    by_cases ht : CONSECUTIVE_FAILURES_FOR_OUTAGE ≤ s.consecutive_failures
    · have hc : ¬ s.consecutive_failures = 0 := by
        unfold CONSECUTIVE_FAILURES_FOR_OUTAGE at ht; omega
      rw [reconcile_opens t1 s ⟨ho, ht⟩]
      exact reconcile_noop t2 _ (by simp) (by simp [hc])
    · rw [reconcile_noop t1 s (by simp [ht]) (by simp [ho])]
      exact reconcile_noop t2 s (by simp [ht]) (by simp [ho])

/-! ### Invariant preservation -/

theorem outageInv_open (now : ℚ) (s : ServerStats) (h : OutageInv s) :
    OutageInv (maybe_open_outage now s).1 := by
  by_cases hc : s.outage_open = false ∧ CONSECUTIVE_FAILURES_FOR_OUTAGE ≤ s.consecutive_failures
  · rw [maybe_open_outage_pos now s hc]
    refine ⟨fun h0 => ?_, fun _ => hc.2⟩
    have h0' : s.consecutive_failures = 0 := h0
    have := hc.2
    unfold CONSECUTIVE_FAILURES_FOR_OUTAGE at this
    omega
  · rw [maybe_open_outage_neg now s hc]
    exact h

theorem outageInv_close (now : ℚ) (s : ServerStats) (h : OutageInv s) :
    OutageInv (maybe_close_outage now s).1 := by
  by_cases hc : s.outage_open = true ∧ s.consecutive_failures = 0
  · rw [maybe_close_outage_pos now s hc]
    exact ⟨fun _ => rfl, fun hh => absurd hh Bool.false_ne_true⟩
  · rw [maybe_close_outage_neg now s hc]
    exact h

theorem outageInv_reconcile (now : ℚ) (s : ServerStats)
    (h : s.outage_open = true →
      CONSECUTIVE_FAILURES_FOR_OUTAGE ≤ s.consecutive_failures ∨ s.consecutive_failures = 0) :
    OutageInv (reconcile now s).1 := by
  by_cases ho : s.outage_open = true
  · by_cases hc : s.consecutive_failures = 0
    · rw [reconcile_closes now s ⟨ho, hc⟩, maybe_close_outage_pos now s ⟨ho, hc⟩]
      exact ⟨fun _ => rfl, fun hh => absurd hh Bool.false_ne_true⟩
    · obtain h3 := (h ho).resolve_right hc
      rw [reconcile_noop now s (by simp [ho]) (by simp [hc])]
      exact ⟨fun h0 => absurd h0 hc, fun _ => h3⟩
  · replace ho : s.outage_open = false := by simpa using ho
    by_cases ht : CONSECUTIVE_FAILURES_FOR_OUTAGE ≤ s.consecutive_failures
    · rw [reconcile_opens now s ⟨ho, ht⟩]
      refine ⟨fun h0 => ?_, fun _ => ht⟩
      have h0' : s.consecutive_failures = 0 := h0
      unfold CONSECUTIVE_FAILURES_FOR_OUTAGE at ht
      omega
    · rw [reconcile_noop now s (by simp [ht]) (by simp [ho])]
      exact ⟨fun _ => ho, fun hh => absurd hh (by simp [ho])⟩

/-- Claim C2 (counterexample): the invariant fails on a reachable
interleaving — three failures, `maybe_open_outage`, then a success recorded
with no reconciliation after it leaves `consecutive_failures = 0` with
`outage_open = true`. -/
theorem C2_counterexample :
    ReachAny successBeforeReconcile ∧
    successBeforeReconcile.consecutive_failures = 0 ∧
    successBeforeReconcile.outage_open = true := by
  refine ⟨?_, rfl, rfl⟩
  exact ReachAny.record 5 true (some 10) none
    (ReachAny.openStep 4
      (ReachAny.record 3 false none (some "timeout")
        (ReachAny.record 2 false none (some "timeout")
          (ReachAny.record 1 false none (some "timeout")
            (ReachAny.init "x")))))

/-- Claim C2 (amended): in every state reachable when each `record_result`
is immediately followed by the reconciliation step (with further
reconciliation calls allowed at any time), `consecutive_failures == 0`
implies `outage_open == false`, and `outage_open == true` implies
`consecutive_failures >=` the configured outage threshold. -/
theorem C2_invariant_of_reachCycle (s : ServerStats) (h : ReachCycle s) :
    (s.consecutive_failures = 0 → s.outage_open = false) ∧
    (s.outage_open = true → CONSECUTIVE_FAILURES_FOR_OUTAGE ≤ s.consecutive_failures) := by
  induction h with
  | init host => exact ⟨fun _ => rfl, fun hh => absurd hh Bool.false_ne_true⟩
  | probe tp tr ok rtt err hs ih =>
      apply outageInv_reconcile
      intro hopen
      rw [(record_result_outage_frame tp ok rtt err _).1] at hopen
      have h3 := ih.2 hopen
      rw [record_result_consecutive]
      cases ok
      · left
        simp only [Bool.false_eq_true, if_false]
        omega
      · right
        simp
  | openStep now hs ih => exact outageInv_open now _ ih
  | closeStep now hs ih => exact outageInv_close now _ ih

/-- Claim C2 (witness for the amended theorem): the invariant at a concrete
reachable state — a fresh tracker taken through one failing probe cycle. -/
theorem C2_invariant_witness :
    (((reconcile 1 (record_result 1 false none (some "timeout") (initStats "x"))).1.consecutive_failures = 0 →
        (reconcile 1 (record_result 1 false none (some "timeout") (initStats "x"))).1.outage_open = false) ∧
     ((reconcile 1 (record_result 1 false none (some "timeout") (initStats "x"))).1.outage_open = true →
        CONSECUTIVE_FAILURES_FOR_OUTAGE ≤
          (reconcile 1 (record_result 1 false none (some "timeout") (initStats "x"))).1.consecutive_failures)) :=
  C2_invariant_of_reachCycle _
    (ReachCycle.probe 1 1 false none (some "timeout") (ReachCycle.init "x"))

/-- Claim C3 (counterexample): when `consecutive_failures` reaches the
threshold with no outage open, `maybe_open_outage` performs the transition
but appends no journal record at all — there is no `OUTAGE_OPEN` record. -/
theorem C3_counterexample :
    threeFails.outage_open = false ∧
    threeFails.consecutive_failures = CONSECUTIVE_FAILURES_FOR_OUTAGE ∧
    (maybe_open_outage 4 threeFails).1.outage_open = true ∧
    (maybe_open_outage 4 threeFails).2 = [] :=
  ⟨rfl, rfl, rfl, rfl⟩

/-- Claim C3 (amended): whenever the reconciliation step observes
`consecutive_failures` at or above the threshold with no outage open, it
transitions to `OutageOpen` by setting `outage_start_ts` to the current
time and `outage_missed` to `consecutive_failures` — but it appends no
record at that transition; the interval is journaled only at close. -/
theorem C3_open_transition (now : ℚ) (s : ServerStats) :
    maybe_open_outage now
        { s with
            outage_open := false
            consecutive_failures := s.consecutive_failures + CONSECUTIVE_FAILURES_FOR_OUTAGE } =
      ({ s with
          outage_open := true
          outage_start_ts := some now
          consecutive_failures := s.consecutive_failures + CONSECUTIVE_FAILURES_FOR_OUTAGE
          outage_missed := s.consecutive_failures + CONSECUTIVE_FAILURES_FOR_OUTAGE }, []) := by
  rw [maybe_open_outage_pos now _ ⟨rfl, Nat.le_add_left _ _⟩]

/-- Claim C9: `record_result` never performs an outage transition — for
every outcome it leaves `outage_open`, `outage_start_ts`, `outage_missed`,
`longest_outage_duration` and `longest_outage_ts` unchanged. -/
theorem C9_record_result_outage_frame (now : ℚ) (ok : Bool) (rtt : Option ℚ)
    (err : Option String) (s : ServerStats) :
    (record_result now ok rtt err s).outage_open = s.outage_open ∧
    (record_result now ok rtt err s).outage_start_ts = s.outage_start_ts ∧
    (record_result now ok rtt err s).outage_missed = s.outage_missed ∧
    (record_result now ok rtt err s).longest_outage_duration = s.longest_outage_duration ∧
    (record_result now ok rtt err s).longest_outage_ts = s.longest_outage_ts :=
  record_result_outage_frame now ok rtt err s

/-- Claim C5: closing an outage (outage open, `consecutive_failures == 0`)
appends exactly one close record carrying host, start, end,
`duration = end - start` and the missed count, updates the longest-outage
record (appending a `LONGEST_OUTAGE` entry) exactly when the duration
exceeds it, then clears `outage_open`, `outage_start_ts` and the missed
count; in the threshold-3 scenario of three failures then one success the
close record carries `missed = 3`. -/
theorem C5_close_transition (now : ℚ) (s : ServerStats) :
    maybe_close_outage now { s with outage_open := true, consecutive_failures := 0 } =
      ({ s with
          consecutive_failures := 0
          longest_outage_duration :=
            if s.longest_outage_duration < now - pyOrQ s.outage_start_ts now then
              now - pyOrQ s.outage_start_ts now
            else s.longest_outage_duration
          longest_outage_ts :=
            if s.longest_outage_duration < now - pyOrQ s.outage_start_ts now then some now
            else s.longest_outage_ts
          outage_open := false
          outage_start_ts := none
          outage_missed := 0 },
       LogEntry.outage s.host (pyOrQ s.outage_start_ts now) now
           (now - pyOrQ s.outage_start_ts now) s.outage_missed ::
         (if s.longest_outage_duration < now - pyOrQ s.outage_start_ts now then
           [LogEntry.longest_outage s.host (now - pyOrQ s.outage_start_ts now) now]
         else [])) ∧
    (runCycles scenarioA (initStats "x")).2 =
      [LogEntry.outage "x" 3 10 7 3, LogEntry.longest_outage "x" 7 10] ∧
    (runCycles scenarioA (initStats "x")).1.consecutive_failures = 0 := by
  have hA : (runCycles scenarioA (initStats "x")).2 =
        [LogEntry.outage "x" 3 10 7 3, LogEntry.longest_outage "x" 7 10] ∧
      (runCycles scenarioA (initStats "x")).1.consecutive_failures = 0 := by
    norm_num [runCycles, scenarioA, cycleStep, List.foldl, record_result, reconcile,
      maybe_open_outage, maybe_close_outage, initStats, dequeAppend, pyOrQ, pyOrStr,
      log_outage, log_longest_outage, CONSECUTIVE_FAILURES_FOR_OUTAGE, ROLLING_WINDOW]
  refine ⟨?_, hA.1, hA.2⟩
  rw [maybe_close_outage_pos now _ ⟨rfl, rfl⟩]
  rfl

/-- Claim C6: `record_result` is a total state transition over the two
outcome variants (a total Lean function by construction).  On a success it
increments `success_count`, zeroes `consecutive_failures`, stores the rtt,
clears the error, appends `true` to the window, and starts the uptime
streak only if absent.  On a failure it first settles the longest-uptime
record from the just-ended streak (raising the signal exactly when the
record is beaten), then increments `failure_count` and
`consecutive_failures`, clears the rtt, sets the error, appends `false` to
the window, and clears the streak start. -/
theorem C6_record_result_spec (now : ℚ) (rtt : Option ℚ) (err : Option String)
    (s : ServerStats) (t : ℚ) :
    (record_result now true rtt err s).success_count = s.success_count + 1 ∧
    (record_result now true rtt err s).consecutive_failures = 0 ∧
    (record_result now true rtt err s).last_rtt_ms = rtt ∧
    (record_result now true rtt err s).last_error = none ∧
    (record_result now true rtt err s).window_results = dequeAppend s.window_results true ∧
    (record_result now true rtt err { s with uptime_start_time := none }).uptime_start_time
      = some now ∧
    (record_result now true rtt err { s with uptime_start_time := some t }).uptime_start_time
      = some t ∧
    (record_result now false rtt err s).failure_count = s.failure_count + 1 ∧
    (record_result now false rtt err s).consecutive_failures = s.consecutive_failures + 1 ∧
    (record_result now false rtt err s).last_rtt_ms = none ∧
    (record_result now false rtt err s).last_error = some (pyOrStr err "fail") ∧
    (record_result now false rtt err s).window_results = dequeAppend s.window_results false ∧
    (record_result now false rtt err s).uptime_start_time = none ∧
    (record_result now false rtt err { s with uptime_start_time := some t }).longest_uptime_streak
      = (if s.longest_uptime_streak < now - t then now - t else s.longest_uptime_streak) ∧
    (record_result now false rtt err { s with uptime_start_time := some t }).longest_uptime_streak_ts
      = (if s.longest_uptime_streak < now - t then some now else s.longest_uptime_streak_ts) ∧
    (record_result now false rtt err { s with uptime_start_time := some t }).new_longest_uptime_recorded
      = (if s.longest_uptime_streak < now - t then true else false) ∧
    (record_result now false rtt err { s with uptime_start_time := none }).longest_uptime_streak
      = s.longest_uptime_streak ∧
    (record_result now false rtt err { s with uptime_start_time := none }).new_longest_uptime_recorded
      = false := by
  have hfail := fun (s' : ServerStats) =>
    record_result_false_some now rtt err s'
  refine ⟨rfl, rfl, rfl, rfl, rfl, rfl, rfl, ?_, ?_, ?_, ?_, ?_, ?_, ?_, ?_, ?_, ?_, ?_⟩ <;>
    first
      | (cases hu : s.uptime_start_time with
          | none => rw [record_result_false_none now rtt err s hu]
          | some u => rw [record_result_false_some now rtt err s u hu])
      | rw [record_result_false_some now rtt err _ t rfl]
      | rw [record_result_false_none now rtt err _ rfl]

/-- Claim C7: `finalize` appends exactly one close record, with end
timestamp `now` and duration `now` minus the recorded start, for each
tracker whose `outage_open` is true, and none for any other tracker. -/
theorem C7_finalize_closes_open (now : ℚ) (l : List ServerStats) :
    finalize now l =
      (l.filter (fun s => s.outage_open)).map
        (fun s =>
          LogEntry.outage s.host (pyOrQ s.outage_start_ts now) now
            (now - pyOrQ s.outage_start_ts now) s.outage_missed) ∧
    (finalize now l).length = (l.filter (fun s => s.outage_open)).length := by
  have hmain : finalize now l =
      (l.filter (fun s => s.outage_open)).map
        (fun s =>
          LogEntry.outage s.host (pyOrQ s.outage_start_ts now) now
            (now - pyOrQ s.outage_start_ts now) s.outage_missed) := by
    induction l with
    | nil => rfl
    | cons s l ih =>
        simp only [finalize, List.flatMap_cons, List.filter_cons] at ih ⊢
        cases hs : s.outage_open
        · simpa [hs] using ih
        · simpa [hs, log_outage] using ih
  exact ⟨hmain, by rw [hmain, List.length_map]⟩

/-- Claim C10: `maybe_close_outage` and `finalize` are total even in the
inconsistent state where `outage_open` is true but `outage_start_ts` is
absent (both are total Lean functions by construction): they substitute the
close timestamp for the missing start, so the logged record has
`start = end = now` and duration 0, and `maybe_close_outage` still clears
`outage_open`, `outage_start_ts` and the missed count. -/
theorem C10_missing_start_total (now : ℚ) (s : ServerStats) :
    (maybe_close_outage now
        { s with outage_open := true, outage_start_ts := none, consecutive_failures := 0 }).2.head?
      = some (LogEntry.outage s.host now now 0 s.outage_missed) ∧
    (maybe_close_outage now
        { s with outage_open := true, outage_start_ts := none, consecutive_failures := 0 }).1.outage_open
      = false ∧
    (maybe_close_outage now
        { s with outage_open := true, outage_start_ts := none, consecutive_failures := 0 }).1.outage_start_ts
      = none ∧
    (maybe_close_outage now
        { s with outage_open := true, outage_start_ts := none, consecutive_failures := 0 }).1.outage_missed
      = 0 ∧
    finalize now [{ s with outage_open := true, outage_start_ts := none, consecutive_failures := 0 }]
      = [LogEntry.outage s.host now now 0 s.outage_missed] := by
  rw [maybe_close_outage_pos now _ ⟨rfl, rfl⟩]
  refine ⟨?_, rfl, rfl, rfl, ?_⟩
  · simp [log_outage, pyOrQ]
  · simp [finalize, log_outage, pyOrQ]

/-! ### Rolling window -/

theorem lastWindow_append (bs : List Bool) (b : Bool) :
    dequeAppend (lastWindow bs) b = lastWindow (bs ++ [b]) := by
  unfold dequeAppend lastWindow
  by_cases hn : bs.length < ROLLING_WINDOW
  · have h0 : bs.length - ROLLING_WINDOW = 0 := by omega
    have h1 : (bs ++ [b]).length - ROLLING_WINDOW = 0 := by
      simp only [List.length_append, List.length_singleton]; omega
    rw [h0, h1, List.drop_zero, List.drop_zero]
    rw [if_neg (by simp; omega)]
  · push_neg at hn
    have hR : 1 ≤ ROLLING_WINDOW := by unfold ROLLING_WINDOW; omega
    have hlen : (bs.drop (bs.length - ROLLING_WINDOW)).length = ROLLING_WINDOW := by
      rw [List.length_drop]; omega
    rw [if_pos (by simp [hlen])]
    have hd1 : (bs.drop (bs.length - ROLLING_WINDOW) ++ [b]).length - ROLLING_WINDOW = 1 := by
      simp only [List.length_append, List.length_singleton, hlen]
      omega
    rw [hd1, List.drop_append_of_le_length (by rw [hlen]; exact hR), List.drop_drop,
      List.drop_append_of_le_length (by simp; omega)]
    congr 2
    simp only [List.length_append, List.length_singleton]
    omega

theorem record_result_window (now : ℚ) (ok : Bool) (rtt : Option ℚ)
    (err : Option String) (s : ServerStats) :
    (record_result now ok rtt err s).window_results = dequeAppend s.window_results ok := by
  cases ok
  · cases hu : s.uptime_start_time with
    | none => rw [record_result_false_none now rtt err s hu]
    | some u => rw [record_result_false_some now rtt err s u hu]
  · rfl

theorem runOutcomes_window (l : List ProbeOutcome) (s : ServerStats) (bs : List Bool)
    (hs : s.window_results = lastWindow bs) :
    (runOutcomes l s).window_results = lastWindow (bs ++ l.map (fun o => o.ok)) := by
  induction l generalizing s bs with
  | nil => simpa using hs
  | cons o l ih =>
      have hstep : (record_result o.now o.ok o.rtt_ms o.error s).window_results =
          lastWindow (bs ++ [o.ok]) := by
        rw [record_result_window, hs, lastWindow_append]
      have h2 := ih _ _ hstep
      rw [show runOutcomes (o :: l) s =
          runOutcomes l (record_result o.now o.ok o.rtt_ms o.error s) from rfl, h2]
      congr 1
      simp

theorem lastWindow_length (bs : List Bool) :
    (lastWindow bs).length = min ROLLING_WINDOW bs.length := by
  rw [lastWindow, List.length_drop]
  omega

/-- `packet_loss_pct` always lies in `[0, 100]`. -/
theorem packet_loss_pct_bounds (s : ServerStats) :
    0 ≤ packet_loss_pct s ∧ packet_loss_pct s ≤ 100 := by
  unfold packet_loss_pct
  by_cases h : s.window_results = []
  · rw [if_pos h]; norm_num
  · rw [if_neg h]
    have hlen : 0 < s.window_results.length := List.length_pos.mpr h
    have hc := List.countP_le_length (l := s.window_results) (fun r => !r)
    constructor
    · positivity
    · have h1 : ((s.window_results.countP (fun r => !r) : ℚ) / s.window_results.length) ≤ 1 := by
        rw [div_le_one (by exact_mod_cast hlen)]
        exact_mod_cast hc
      calc ((s.window_results.countP (fun r => !r) : ℚ) / s.window_results.length) * 100
          ≤ 1 * 100 := by
            apply mul_le_mul_of_nonneg_right h1; norm_num
        _ = 100 := by norm_num

/-- Claim C8: for every sequence of recorded outcomes, `packet_loss_pct`
equals the number of failures among the last `min ROLLING_WINDOW total`
outcomes, divided by `min ROLLING_WINDOW total`, times 100; the result lies
in `[0, 100]` and is exactly 0 before any probe has been recorded. -/
theorem C8_packet_loss (l : List ProbeOutcome) (h : String) :
    packet_loss_pct (runOutcomes l (initStats h)) =
      (if l = [] then 0
       else ((lastWindow (l.map (fun o => o.ok))).countP (fun r => !r) : ℚ)
              / ((min ROLLING_WINDOW l.length : ℕ) : ℚ) * 100) ∧
    0 ≤ packet_loss_pct (runOutcomes l (initStats h)) ∧
    packet_loss_pct (runOutcomes l (initStats h)) ≤ 100 ∧
    packet_loss_pct (initStats h) = 0 := by
  have hw : (runOutcomes l (initStats h)).window_results =
      lastWindow (l.map (fun o => o.ok)) := by
    simpa using runOutcomes_window l (initStats h) [] rfl
  refine ⟨?_, (packet_loss_pct_bounds _).1, (packet_loss_pct_bounds _).2, rfl⟩
  unfold packet_loss_pct
  rw [hw]
  by_cases hl : l = []
  · subst hl; rfl
  · have hne : lastWindow (l.map (fun o => o.ok)) ≠ [] := by
      have : (lastWindow (l.map (fun o => o.ok))).length ≠ 0 := by
        rw [lastWindow_length, List.length_map]
        have : l.length ≠ 0 := fun hc => hl (List.length_eq_zero.mp hc)
        unfold ROLLING_WINDOW
        omega
      exact fun hc => this (by rw [hc]; rfl)
    rw [if_neg hne, if_neg hl, lastWindow_length, List.length_map]

/-- Claim C4 (counterexample): in scenario D (a 50-second streak ended by a
failure, then an 80-second streak ended by a failure) the journal receives
two `LONGEST_UPTIME` records, one of them for the 50-second streak — not
exactly one for the 80-second streak. -/
theorem C4_counterexample :
    ((runJournal scenarioD (initStats "x")).2).length = 2 ∧
    log_longest_uptime "x" 50 50 ∈ (runJournal scenarioD (initStats "x")).2 := by
  norm_num [runJournal, scenarioD, record_and_journal, List.foldl, record_result,
    initStats, dequeAppend, pyOrStr, log_longest_uptime, ROLLING_WINDOW]

/-- Claim C4 (amended): in scenario D, `longest_uptime_streak` ends at 80
seconds, and exactly two `LONGEST_UPTIME` records are appended — one for
the 50-second streak when it ends and one for the 80-second streak when it
ends, neither twice. -/
theorem C4_longest_uptime_records :
    (runJournal scenarioD (initStats "x")).1.longest_uptime_streak = 80 ∧
    (runJournal scenarioD (initStats "x")).2 =
      [log_longest_uptime "x" 50 50, log_longest_uptime "x" 80 140] := by
  norm_num [runJournal, scenarioD, record_and_journal, List.foldl, record_result,
    initStats, dequeAppend, pyOrStr, log_longest_uptime, ROLLING_WINDOW]

end ConnMonitor
